import Mathlib

/-!
Verification of the teehistorian-py chunk layer and its build-time stub
generator, as a shallow embedding of the Rust sources (`src/chunks.rs`,
`src/macros.rs`, `src/errors.rs`, `build.rs`).

Machine integers (`i32`) are modelled as `Int` (no arithmetic is performed on
them, so no wrap-around is involved), Rust `Vec<u8>` byte buffers as
`List Nat`, `uuid::Uuid` as the 128-bit value it denotes (`Nat`), and Rust
`String` as Lean `String` whose byte view is its UTF-8 encoding.
-/

-- ============================================================================
-- Python dict model
-- ============================================================================

/-- A value stored into a Python dict by the `set_item` calls in the chunk
`to_dict` methods: an integer, a text string, a byte buffer, or a list of
integers. -/
inductive PyValue
  | int (i : Int)
  | str (s : String)
  | bytes (b : List Nat)
  | intList (l : List Int)
deriving DecidableEq

/-- CPython dict `set_item` on an insertion-ordered association list: an
existing key keeps its position and receives the new value, a fresh key is
appended at the end. -/
def setItem (d : List (String × PyValue)) (k : String) (v : PyValue) :
    List (String × PyValue) :=
  if d.any (fun p => decide (p.1 = k)) then
    d.map (fun p => if p.1 = k then (k, v) else p)
  else
    d ++ [(k, v)]

/-- The `to_dict` body generated by `define_chunk`, `define_chunk_custom` and
`define_inline_chunk` (src/macros.rs, lines 101-108 and the two copies of the
same block): a fresh dict, then `set_item("type", chunk_type())`, then one
`set_item(stringify!(field), value)` per declared field in declaration
order. -/
def generatedToDict (typeName : String) (fields : List (String × PyValue)) :
    List (String × PyValue) :=
  fields.foldl (fun d p => setItem d p.1 p.2)
    (setItem [] "type" (PyValue.str typeName))

-- ============================================================================
-- Byte view of Rust strings
-- ============================================================================

/-- UTF-8 encoding of a single character, by codepoint ranges. -/
def utf8Bytes (c : Char) : List Nat :=
  let n := c.toNat
  if n < 0x80 then [n]
  else if n < 0x800 then [0xC0 + n / 64, 0x80 + n % 64]
  else if n < 0x10000 then
    [0xE0 + n / 4096, 0x80 + (n / 64) % 64, 0x80 + n % 64]
  else
    [0xF0 + n / 262144, 0x80 + (n / 4096) % 64, 0x80 + (n / 64) % 64,
     0x80 + n % 64]

/-- Rust `str::as_bytes` / `String::as_bytes`: the UTF-8 byte sequence of the
string. This is the `as_bytes` conversion of `define_chunk_custom!` and the
`String` case of the `@convert_field` helpers in src/macros.rs. -/
def strBytes (s : String) : List Nat :=
  (s.toList.map utf8Bytes).flatten

-- ============================================================================
-- UUID parsing (external collaborator: the uuid crate)
-- ============================================================================

/-- Value of one hexadecimal digit, upper or lower case. -/
def hexVal? (c : Char) : Option Nat :=
  if '0' ≤ c ∧ c ≤ '9' then some (c.toNat - '0'.toNat)
  else if 'a' ≤ c ∧ c ≤ 'f' then some (c.toNat - 'a'.toNat + 10)
  else if 'A' ≤ c ∧ c ≤ 'F' then some (c.toNat - 'A'.toNat + 10)
  else none

/-- Fold a list of hex digits into a number; fails on the first non-digit. -/
def hexFold? : List Char → Nat → Option Nat
  | [], acc => some acc
  | c :: rest, acc =>
    match hexVal? c with
    | some v => hexFold? rest (acc * 16 + v)
    | none => none

/-- Boolean prefix test on character lists. -/
def leadsWith : List Char → List Char → Bool
  | [], _ => true
  | _ :: _, [] => false
  | p :: ps, c :: cs => p == c && leadsWith ps cs

/-- Parse the canonical hyphenated UUID form `8-4-4-4-12`. -/
def parseHyphenated (cs : List Char) : Option Nat :=
  if cs.length = 36 ∧ cs.getD 8 ' ' = '-' ∧ cs.getD 13 ' ' = '-' ∧
      cs.getD 18 ' ' = '-' ∧ cs.getD 23 ' ' = '-' then
    hexFold?
      (cs.take 8 ++ (cs.drop 9).take 4 ++ (cs.drop 14).take 4 ++
        (cs.drop 19).take 4 ++ cs.drop 24) 0
  else none

/-- Modelled from the uuid crate: `Uuid::parse_str` accepts the simple form
(32 hex digits), the canonical hyphenated form, the braced hyphenated form and
the URN form, and fails on everything else. The result is the 128-bit value of
the identifier. -/
def parseUuidStr (s : String) : Option Nat :=
  let cs := s.toList
  if cs.length = 32 then hexFold? cs 0
  else if cs.length = 36 then parseHyphenated cs
  else if cs.length = 38 ∧ cs.getD 0 ' ' = '\x7b' ∧ cs.getD 37 ' ' = '\x7d' then
    parseHyphenated ((cs.drop 1).take 36)
  else if cs.length = 45 ∧ leadsWith "urn:uuid:".toList cs then
    parseHyphenated (cs.drop 9)
  else none

/-- `uuid::Uuid::parse_str(&value).unwrap_or_default()`: the `as_uuid`
conversion of `define_chunk_custom!` (src/macros.rs, lines 331-333), also
written out inline in `PyUnknown::to_teehistorian_chunk` and
`PyCustomChunk::to_teehistorian_chunk` (src/chunks.rs). `Uuid::default()` is
the nil (all-zero) identifier. -/
def as_uuid (s : String) : Nat :=
  (parseUuidStr s).getD 0

/-- The `as_args_vec` conversion of `define_chunk_custom!` (src/macros.rs,
lines 334-339): despite the comment in the source speaking of splitting by
null bytes, the body is `vec![value.as_bytes()]` — the whole byte sequence of
the string, as the single element of the produced list. -/
def as_args_vec (s : String) : List (List Nat) :=
  [strBytes s]

-- ============================================================================
-- The teehistorian wire chunk model (external crate `teehistorian`),
-- restricted to the variants the embedded chunk types construct.
-- ============================================================================

/-- `teehistorian::chunks::PlayerName`. -/
structure PlayerName where
  cid : Int
  name : List Nat
deriving DecidableEq

/-- `teehistorian::chunks::InputNew`; the `input` field models `[i32; 10]`. -/
structure InputNew where
  cid : Int
  input : List Int
deriving DecidableEq

/-- `teehistorian::chunks::InputDiff`; the `dinput` field models `[i32; 10]`. -/
structure InputDiff where
  cid : Int
  dinput : List Int
deriving DecidableEq

/-- `teehistorian::chunks::Auth` — the payload record of the `AuthLogin`
variant; its name differs from the variant name. -/
structure Auth where
  cid : Int
  level : Int
  auth_name : List Nat
deriving DecidableEq

/-- `teehistorian::chunks::NetMessage`. -/
structure NetMessage where
  cid : Int
  msg : List Nat
deriving DecidableEq

/-- `teehistorian::chunks::ConsoleCommand`; `args` models `Vec<&[u8]>`. -/
structure ConsoleCommand where
  cid : Int
  flags : Int
  cmd : List Nat
  args : List (List Nat)
deriving DecidableEq

/-- `teehistorian::chunks::DdnetVersion`. -/
structure DdnetVersion where
  cid : Int
  connection_id : Nat
  version : Int
  version_str : List Nat
deriving DecidableEq

/-- `teehistorian::chunks::TeamSave` — the payload record of the
`TeamLoadSuccess` variant. -/
structure TeamSave where
  team : Int
  save_id : Nat
  save : List Nat
deriving DecidableEq

/-- `teehistorian::chunks::UnknownEx`. -/
structure UnknownEx where
  uuid : Nat
  data : List Nat
deriving DecidableEq

/-- The `teehistorian::Chunk` enum, restricted to the variants produced by the
`to_teehistorian_chunk` implementations embedded here. Inline-struct variants
(`Join`, `TickSkip`, ...) carry their fields directly; tuple variants carry a
named payload record. -/
inductive Chunk
  | Join (cid : Int)
  | TickSkip (dt : Int)
  | PlayerName (s : PlayerName)
  | InputNew (s : InputNew)
  | InputDiff (s : InputDiff)
  | AuthLogin (s : Auth)
  | NetMessage (s : NetMessage)
  | ConsoleCommand (s : ConsoleCommand)
  | DdnetVersion (s : DdnetVersion)
  | TeamLoadSuccess (s : TeamSave)
  | UnknownEx (s : UnknownEx)
deriving DecidableEq

/-- The outer variant tag of a wire chunk — the Rust enum variant identifier
selected by the `Chunk::...` constructor call. -/
def Chunk.variantName : Chunk → String
  | .Join _ => "Join"
  | .TickSkip _ => "TickSkip"
  | .PlayerName _ => "PlayerName"
  | .InputNew _ => "InputNew"
  | .InputDiff _ => "InputDiff"
  | .AuthLogin _ => "AuthLogin"
  | .NetMessage _ => "NetMessage"
  | .ConsoleCommand _ => "ConsoleCommand"
  | .DdnetVersion _ => "DdnetVersion"
  | .TeamLoadSuccess _ => "TeamLoadSuccess"
  | .UnknownEx _ => "UnknownEx"

/-- The name of the inner wire record (`teehistorian::chunks::*` struct)
carried by a tuple variant, or `none` for an inline-struct variant. -/
def Chunk.innerStructName : Chunk → Option String
  | .Join _ => none
  | .TickSkip _ => none
  | .PlayerName _ => some "PlayerName"
  | .InputNew _ => some "InputNew"
  | .InputDiff _ => some "InputDiff"
  | .AuthLogin _ => some "Auth"
  | .NetMessage _ => some "NetMessage"
  | .ConsoleCommand _ => some "ConsoleCommand"
  | .DdnetVersion _ => some "DdnetVersion"
  | .TeamLoadSuccess _ => some "TeamSave"
  | .UnknownEx _ => some "UnknownEx"

-- ============================================================================
-- Embedded chunk value objects (src/chunks.rs)
-- ============================================================================

/-- `PyPlayerReady` (src/chunks.rs, lines 94-146): hand-written frozen pyclass
with a single `client_id` field. -/
structure PyPlayerReady where
  client_id : Int
deriving DecidableEq

/-- `PyPlayerReady::to_teehistorian_chunk`: represented as `PlayerName` with
empty name in teehistorian 0.12. -/
def PyPlayerReady.to_teehistorian_chunk (x : PyPlayerReady) : Chunk :=
  Chunk.PlayerName { cid := x.client_id, name := [] }

/-- `PyPlayerReady::to_dict` (src/chunks.rs, lines 136-141). -/
def PyPlayerReady.to_dict (x : PyPlayerReady) : List (String × PyValue) :=
  setItem (setItem [] "type" (PyValue.str "PlayerReady"))
    "client_id" (PyValue.int x.client_id)

/-- `PyPlayerTeam` (src/chunks.rs, lines 170-226): hand-written frozen pyclass
with `client_id` and `team`. -/
structure PyPlayerTeam where
  client_id : Int
  team : Int
deriving DecidableEq

/-- `PyPlayerTeam::to_teehistorian_chunk` (src/chunks.rs, lines 185-194):
`PlayerTeam` has no direct teehistorian representation; `PlayerName` with an
empty name is used as a fallback and `team` is dropped. -/
def PyPlayerTeam.to_teehistorian_chunk (x : PyPlayerTeam) : Chunk :=
  Chunk.PlayerName { cid := x.client_id, name := [] }

/-- `PyPlayerTeam::to_dict` (src/chunks.rs, lines 215-221). -/
def PyPlayerTeam.to_dict (x : PyPlayerTeam) : List (String × PyValue) :=
  setItem
    (setItem (setItem [] "type" (PyValue.str "PlayerTeam"))
      "client_id" (PyValue.int x.client_id))
    "team" (PyValue.int x.team)

/-- `PyInputNew` (src/chunks.rs, lines 250-308): `client_id` plus an
unbounded input list as constructed. -/
structure PyInputNew where
  client_id : Int
  input : List Int
deriving DecidableEq

/-- `PyInputDiff` (src/chunks.rs, lines 312-370). -/
structure PyInputDiff where
  client_id : Int
  input : List Int
deriving DecidableEq

/-- Rust `iter().enumerate()` with an explicit starting index. -/
def enumF {α : Type} : Nat → List α → List (Nat × α)
  | _, [] => []
  | k, a :: l => (k, a) :: enumF (k + 1) l

/-- The array-filling loop shared by `PyInputNew::to_teehistorian_chunk`
(src/chunks.rs, lines 266-275) and `PyInputDiff::to_teehistorian_chunk`
(lines 328-337): start from `[0i32; 10]` and write the first ten supplied
values at their indices (`for (i, &val) in input.iter().take(10).enumerate()`). -/
def fillInputArray (input : List Int) : List Int :=
  (enumF 0 (input.take 10)).foldl (fun arr p => arr.set p.1 p.2)
    (List.replicate 10 0)

/-- `PyInputNew::to_teehistorian_chunk`. -/
def PyInputNew.to_teehistorian_chunk (x : PyInputNew) : Chunk :=
  Chunk.InputNew { cid := x.client_id, input := fillInputArray x.input }

/-- `PyInputDiff::to_teehistorian_chunk`. -/
def PyInputDiff.to_teehistorian_chunk (x : PyInputDiff) : Chunk :=
  Chunk.InputDiff { cid := x.client_id, dinput := fillInputArray x.input }

/-- `PyConsoleCommand`, declared through `define_chunk_custom!`
(src/chunks.rs, lines 383-391): fields `client_id`, `flags`, `cmd`
(`as_bytes`) and `args` (`as_args_vec`). -/
structure PyConsoleCommand where
  client_id : Int
  flags : Int
  cmd : String
  args : String
deriving DecidableEq

/-- `PyConsoleCommand::to_teehistorian_chunk`, as expanded by
`define_chunk_custom!` with the declared conversions. -/
def PyConsoleCommand.to_teehistorian_chunk (x : PyConsoleCommand) : Chunk :=
  Chunk.ConsoleCommand
    { cid := x.client_id, flags := x.flags, cmd := strBytes x.cmd,
      args := as_args_vec x.args }

/-- `PyAuthLogin`, declared as `AuthLogin(AuthLogin::Auth)` through
`define_chunk_custom!` (src/chunks.rs, lines 396-403): the variant name and
the payload struct name differ. -/
structure PyAuthLogin where
  client_id : Int
  level : Int
  auth_name : String
deriving DecidableEq

/-- `PyAuthLogin::to_teehistorian_chunk`, as expanded by the
variant-and-struct arm of `define_chunk_custom!` (src/macros.rs,
lines 197-207): `Chunk::AuthLogin(teehistorian::chunks::Auth { .. })`. -/
def PyAuthLogin.to_teehistorian_chunk (x : PyAuthLogin) : Chunk :=
  Chunk.AuthLogin
    { cid := x.client_id, level := x.level, auth_name := strBytes x.auth_name }

/-- `PyDdnetVersion`, declared through `define_chunk_custom!` (src/chunks.rs,
lines 405-413), with the `as_uuid` conversion on `connection_id`. -/
structure PyDdnetVersion where
  client_id : Int
  connection_id : String
  version : Int
  version_str : List Nat
deriving DecidableEq

/-- `PyDdnetVersion::to_teehistorian_chunk`. -/
def PyDdnetVersion.to_teehistorian_chunk (x : PyDdnetVersion) : Chunk :=
  Chunk.DdnetVersion
    { cid := x.client_id, connection_id := as_uuid x.connection_id,
      version := x.version, version_str := x.version_str }

/-- `PyTeamLoadSuccess`, declared as `TeamLoadSuccess(TeamLoadSuccess::TeamSave)`
through `define_chunk_custom!` (src/chunks.rs, lines 425-432), with the
`as_uuid` conversion on `save_id`. -/
structure PyTeamLoadSuccess where
  team : Int
  save_id : String
  save : String
deriving DecidableEq

/-- `PyTeamLoadSuccess::to_teehistorian_chunk`. -/
def PyTeamLoadSuccess.to_teehistorian_chunk (x : PyTeamLoadSuccess) : Chunk :=
  Chunk.TeamLoadSuccess
    { team := x.team, save_id := as_uuid x.save_id, save := strBytes x.save }

/-- `PyUnknown` (src/chunks.rs, lines 461-532): uuid string plus raw data. -/
structure PyUnknown where
  uuid : String
  data : List Nat
deriving DecidableEq

/-- `PyUnknown::to_teehistorian_chunk` (src/chunks.rs, lines 476-486):
`Uuid::parse_str(&self.uuid).unwrap_or_default()` and the raw bytes. -/
def PyUnknown.to_teehistorian_chunk (x : PyUnknown) : Chunk :=
  Chunk.UnknownEx { uuid := as_uuid x.uuid, data := x.data }

/-- `PyUnknown::to_dict` (src/chunks.rs, lines 507-513). -/
def PyUnknown.to_dict (x : PyUnknown) : List (String × PyValue) :=
  setItem
    (setItem (setItem [] "type" (PyValue.str "Unknown"))
      "uuid" (PyValue.str x.uuid))
    "data" (PyValue.bytes x.data)

/-- `PyCustomChunk` (src/chunks.rs, lines 535-613): uuid string, raw data and
the registered handler name. -/
structure PyCustomChunk where
  uuid : String
  data : List Nat
  handler_name : String
deriving DecidableEq

/-- `PyCustomChunk::to_teehistorian_chunk` (src/chunks.rs, lines 556-566):
identical body to `PyUnknown::to_teehistorian_chunk`; `handler_name` is not
consulted. -/
def PyCustomChunk.to_teehistorian_chunk (x : PyCustomChunk) : Chunk :=
  Chunk.UnknownEx { uuid := as_uuid x.uuid, data := x.data }

/-- `PyCustomChunk::to_dict` (src/chunks.rs, lines 587-594): like
`PyUnknown::to_dict` plus a `handler_name` entry. -/
def PyCustomChunk.to_dict (x : PyCustomChunk) : List (String × PyValue) :=
  setItem
    (setItem
      (setItem (setItem [] "type" (PyValue.str "CustomChunk"))
        "uuid" (PyValue.str x.uuid))
      "data" (PyValue.bytes x.data))
    "handler_name" (PyValue.str x.handler_name)

-- ============================================================================
-- Error conversion (src/errors.rs)
-- ============================================================================

/-- `TeehistorianParseError` (src/errors.rs, lines 14-47); each variant
carries the message of its underlying cause. -/
inductive TeehistorianParseError
  | Initialization (s : String)
  | Header (s : String)
  | Parse (s : String)
  | Validation (s : String)
  | Handler (s : String)
  | Io (s : String)
  | Utf8 (s : String)
  | Eof
deriving DecidableEq

/-- The `Display` rendering produced by the `#[error(...)]` attributes of
`TeehistorianParseError`. -/
def TeehistorianParseError.to_string : TeehistorianParseError → String
  | .Initialization s => "Initialization failed: " ++ s
  | .Header s => "Header parsing failed: " ++ s
  | .Parse s => "Parse error: " ++ s
  | .Validation s => "Validation failed: " ++ s
  | .Handler s => "Handler error: " ++ s
  | .Io s => "IO error: " ++ s
  | .Utf8 s => "UTF-8 decode error: " ++ s
  | .Eof => "End of file reached"

/-- The Python exception kinds produced by
`From<TeehistorianParseError> for PyErr`. -/
inductive PyErr
  | stopIteration (msg : String)
  | teehistorianError (msg : String)
deriving DecidableEq

/-- `From<TeehistorianParseError> for PyErr` (src/errors.rs, lines 49-62):
`Eof` becomes `StopIteration`, every other variant becomes a
`TeehistorianError` carrying `err.to_string()`. -/
def pyErrFromParseError (err : TeehistorianParseError) : PyErr :=
  match err with
  | .Eof => PyErr.stopIteration err.to_string
  | _ => PyErr.teehistorianError err.to_string

-- ============================================================================
-- The stub generator (build.rs): data model of the scanned source
-- ============================================================================

/-- The attributes of a struct or field that build.rs inspects: doc comments
(`#[doc = "..."]`), `#[pyclass(...)]`, the legacy `#[chunk_category = "..."]`
and `#[pyo3(get)]`; everything else is irrelevant to the scan. -/
inductive Attr
  | doc (text : String)
  | pyclass
  | chunkCategory (text : String)
  | pyo3Get
  | otherAttr
deriving DecidableEq

/-- A named struct field as seen by the scan: identifier, the type's token
text with spaces removed (as `quote!(#ty).to_string().replace(" ", "")`
produces it), and its attributes. -/
structure FieldDef where
  name : String
  ty : String
  attrs : List Attr
deriving DecidableEq

/-- `syn::Fields`: named fields, or any other field shape (tuple or unit). -/
inductive StructFields
  | named (fs : List FieldDef)
  | unnamed
deriving DecidableEq

/-- A struct item as seen by the scan: identifier, whether it is `pub`, its
attributes and its fields. -/
structure ItemStruct where
  ident : String
  isPub : Bool
  attrs : List Attr
  fields : StructFields
deriving DecidableEq

/-- A top-level item of the parsed source file: a struct declaration, or any
other item (impl block, trait, use, ...). -/
inductive Item
  | strukt (s : ItemStruct)
  | otherItem
deriving DecidableEq

/-- `ChunkInfo` (build.rs, lines 45-55). The field order matters: the derived
`Ord` compares `name`, then `doc`, then `fields`, then `category`. -/
structure ChunkInfo where
  name : String
  doc : Option String
  fields : List (String × String)
  category : String
deriving DecidableEq

-- ============================================================================
-- String helpers used by the scan (kernel-computable replacements for the
-- corresponding Rust std operations)
-- ============================================================================

/-- First whitespace-separated token: `split_whitespace().next()`, with the
empty list standing for `None`/empty. -/
def firstToken (cs : List Char) : List Char :=
  (cs.dropWhile Char.isWhitespace).takeWhile (fun c => !c.isWhitespace)

/-- `str::trim`. -/
def trimStr (s : String) : String :=
  String.mk
    (((s.toList.dropWhile Char.isWhitespace).reverse.dropWhile
        Char.isWhitespace).reverse)

/-- `str::starts_with` for string patterns. -/
def startsWithStr (s pat : String) : Bool :=
  leadsWith pat.toList s.toList

/-- `str::ends_with` for string patterns. -/
def endsWithStr (s pat : String) : Bool :=
  leadsWith pat.toList.reverse s.toList.reverse

theorem leadsWith_length : ∀ {pat s : List Char},
    leadsWith pat s = true → pat.length ≤ s.length := by
  intro pat
  induction pat with
  | nil => intro s _; simp
  | cons p ps ih =>
    intro s h
    cases s with
    | nil => simp [leadsWith] at h
    | cons c cs =>
      simp only [leadsWith, Bool.and_eq_true] at h
      simpa [Nat.succ_le_succ_iff] using ih h.2

/-- `str::trim_start_matches`: repeatedly remove a leading occurrence of the
pattern. -/
def stripStartRep (pat : List Char) (s : List Char) : List Char :=
  if h : pat ≠ [] ∧ leadsWith pat s = true then
    stripStartRep pat (s.drop pat.length)
  else s
termination_by s.length
decreasing_by
  have hle := leadsWith_length h.2
  have hp : 0 < pat.length := List.length_pos.mpr h.1
  simp only [List.length_drop]
  omega

/-- `str::trim_end_matches`: repeatedly remove a trailing occurrence of the
pattern, via the reversed string. -/
def stripEndRep (pat : List Char) (s : List Char) : List Char :=
  (stripStartRep pat.reverse s.reverse).reverse

/-- The inner type text of an `Option<...>` token string:
`trim_start_matches("Option<").trim_end_matches(">")` (build.rs, line 521). -/
def optionInner (t : String) : String :=
  String.mk (stripEndRep ">".toList (stripStartRep "Option<".toList t.toList))

/-- `find("Category:")` followed by taking the rest of the string: `none` when
the marker does not occur, otherwise the characters after its first
occurrence. -/
def findCategoryTail : List Char → Option (List Char)
  | [] => none
  | c :: rest =>
    if leadsWith "Category:".toList (c :: rest) then some (rest.drop 8)
    else findCategoryTail rest

-- ============================================================================
-- The scan itself (build.rs, lines 58-190 and 508-544)
-- ============================================================================

/-- The per-doc-line body of the first loop of `extract_chunk_category`
(build.rs, lines 91-105): find `"Category:"`, take the first
whitespace-separated token after it, and succeed only if it is non-empty. -/
def categoryFromDoc (doc : String) : Option String :=
  match findCategoryTail doc.toList with
  | some tail =>
    let category := firstToken tail
    if category = [] then none else some (String.mk category)
  | none => none

/-- `extract_chunk_category` (build.rs, lines 88-118): first doc line with a
non-empty `Category:` marker, else the first legacy `chunk_category`
attribute, trimmed. -/
def extract_chunk_category (attrs : List Attr) : Option String :=
  match attrs.findSome? (fun a =>
      match a with
      | Attr.doc d => categoryFromDoc d
      | _ => none) with
  | some c => some c
  | none =>
    attrs.findSome? (fun a =>
      match a with
      | Attr.chunkCategory v => some (trimStr v)
      | _ => none)

/-- `extract_doc_comments` (build.rs, lines 170-190): trimmed doc lines
joined with newlines, `none` when there are no doc attributes. -/
def extract_doc_comments (attrs : List Attr) : Option String :=
  let docs := attrs.filterMap (fun a =>
    match a with
    | Attr.doc d => some (trimStr d)
    | _ => none)
  if docs = [] then none else some (String.intercalate "\n" docs)

/-- `convert_inner_type` (build.rs, lines 533-544). -/
def convert_inner_type (t : String) : String :=
  match t with
  | "i8" | "i16" | "i32" | "i64" | "i128" | "u8" | "u16" | "u32" | "u64"
  | "u128" | "usize" | "isize" => "int"
  | "f32" | "f64" => "float"
  | "bool" => "bool"
  | "String" | "str" => "str"
  | "Vec<u8>" | "&[u8]" => "bytes"
  | "Uuid" => "str"
  | _ => "Any"

/-- `rust_type_to_python` (build.rs, lines 508-530), on the space-stripped
type token text. -/
def rust_type_to_python (t : String) : String :=
  match t with
  | "i8" | "i16" | "i32" | "i64" | "i128" | "u8" | "u16" | "u32" | "u64"
  | "u128" | "usize" | "isize" => "int"
  | "f32" | "f64" => "float"
  | "bool" => "bool"
  | "String" | "str" => "str"
  | "Vec<u8>" | "&[u8]" => "bytes"
  | _ =>
    if startsWithStr t "Vec<i" && endsWithStr t ">" then "List[int]"
    else if startsWithStr t "Vec<" then "List[Any]"
    else if startsWithStr t "Option<" then
      "Optional[" ++ convert_inner_type (optionInner t) ++ "]"
    else if startsWithStr t "HashMap<" || startsWithStr t "BTreeMap<" then
      "Dict[Any, Any]"
    else if t = "Uuid" then "str"
    else "Any"

/-- Test for the `#[pyclass]` attribute. -/
def isPyclass : Attr → Bool
  | Attr.pyclass => true
  | _ => false

/-- Test for the `#[pyo3(get)]` attribute. -/
def isPyo3Get : Attr → Bool
  | Attr.pyo3Get => true
  | _ => false

/-- `strip_prefix("Py").unwrap_or(&struct_name)`. -/
def stripPy (s : String) : String :=
  if startsWithStr s "Py" then String.mk (s.toList.drop 2) else s

/-- `extract_chunk_info` (build.rs, lines 121-167): skip the base `PyChunk`,
strip the `Py` prefix, collect doc text, category (default `"Other"`) and the
`#[pyo3(get)]` fields of a named-fields struct with their mapped types. -/
def extract_chunk_info (s : ItemStruct) : Option ChunkInfo :=
  if s.ident = "PyChunk" then none
  else
    some
      { name := stripPy s.ident
        doc := extract_doc_comments s.attrs
        fields :=
          match s.fields with
          | StructFields.named fs =>
            fs.filterMap (fun f =>
              if f.attrs.any isPyo3Get then
                some (f.name, rust_type_to_python f.ty)
              else none)
          | StructFields.unnamed => []
        category := (extract_chunk_category s.attrs).getD "Other" }

/-- The per-item body of the loop in `extract_chunks_from_source` (build.rs,
lines 65-78): only public structs carrying `#[pyclass]` that
`extract_chunk_info` accepts are reflected; every other item yields
nothing. -/
def reflectItem : Item → Option ChunkInfo
  | Item.strukt s =>
    if s.attrs.any isPyclass && s.isPub then extract_chunk_info s else none
  | Item.otherItem => none

-- ============================================================================
-- The sort (`chunks.sort()` with the derived lexicographic `Ord`)
-- ============================================================================

/-- Strict comparison of one character, by codepoint (UTF-8 byte order and
codepoint order agree). -/
def charLtB (a b : Char) : Bool :=
  decide (a.toNat < b.toNat)

/-- Strict lexicographic comparison of character lists — Rust's `str` /
`String` `Ord`. -/
def clLt : List Char → List Char → Bool
  | [], [] => false
  | [], _ :: _ => true
  | _ :: _, [] => false
  | a :: as, b :: bs => charLtB a b || (a == b && clLt as bs)

/-- Strict `String` comparison. -/
def strLtB (a b : String) : Bool :=
  clLt a.toList b.toList

/-- Non-strict `String` comparison. -/
def strLeB (a b : String) : Bool :=
  strLtB a b || decide (a = b)

/-- The derived `Ord` of `Option<String>`: `None` sorts before `Some`. -/
def optDocLtB : Option String → Option String → Bool
  | none, some _ => true
  | some a, some b => strLtB a b
  | _, _ => false

/-- The derived `Ord` of `(String, String)`: lexicographic on the pair. -/
def fieldPairLtB (a b : String × String) : Bool :=
  strLtB a.1 b.1 || (decide (a.1 = b.1) && strLtB a.2 b.2)

/-- The derived `Ord` of `Vec<(String, String)>`: elementwise lexicographic,
a proper prefix sorting first. -/
def fieldsLtB : List (String × String) → List (String × String) → Bool
  | _, [] => false
  | [], _ :: _ => true
  | x :: xs, y :: ys => fieldPairLtB x y || (decide (x = y) && fieldsLtB xs ys)

/-- The non-strict order of the derived `Ord` of `ChunkInfo` (build.rs,
line 45): lexicographic on `name`, `doc`, `fields`, `category` in field
order. -/
def chunkLeB (a b : ChunkInfo) : Bool :=
  strLtB a.name b.name ||
    (decide (a.name = b.name) &&
      (optDocLtB a.doc b.doc ||
        (decide (a.doc = b.doc) &&
          (fieldsLtB a.fields b.fields ||
            (decide (a.fields = b.fields) && strLeB a.category b.category)))))

/-- Insert into a list sorted by `chunkLeB`. -/
def insertChunk (c : ChunkInfo) : List ChunkInfo → List ChunkInfo
  | [] => [c]
  | x :: xs => if chunkLeB c x then c :: x :: xs else x :: insertChunk c xs

/-- `chunks.sort()` (build.rs, line 82), as insertion sort by the derived
`Ord`. Since the derived comparison is equality exactly on identical records,
any sort by this order produces the same list, so this models Rust's stable
merge sort faithfully. -/
def sortChunks : List ChunkInfo → List ChunkInfo
  | [] => []
  | c :: cs => insertChunk c (sortChunks cs)

/-- `extract_chunks_from_source` (build.rs, lines 58-84), parameterised by
the parsed items of src/chunks.rs (file reading and syn parsing are external
collaborators): reflect each item, soft-skipping whatever does not reflect,
then sort for consistent output. -/
def extract_chunks_from_source (items : List Item) : List ChunkInfo :=
  sortChunks (items.filterMap reflectItem)

-- ============================================================================
-- The stub emitter (`generate_pyi`, build.rs lines 193-505)
-- ============================================================================

/-- `BTreeMap::entry(category).or_default().push(chunk)` over a key-sorted
association list: append to an existing group, or insert a fresh group at its
sorted position. -/
def insertGrouped : List (String × List ChunkInfo) → ChunkInfo →
    List (String × List ChunkInfo)
  | [], c => [(c.category, [c])]
  | (k, v) :: rest, c =>
    if c.category = k then (k, v ++ [c]) :: rest
    else if strLtB c.category k then (c.category, [c]) :: (k, v) :: rest
    else (k, v) :: insertGrouped rest c

/-- The `chunks_by_category` map of `generate_pyi` (build.rs, lines 412-418),
iterated in ascending key order as `BTreeMap` iteration does. -/
def groupByCategory (chunks : List ChunkInfo) : List (String × List ChunkInfo) :=
  chunks.foldl insertGrouped []

/-- `generate_chunk_class` (build.rs, lines 474-505). -/
def generate_chunk_class (chunk : ChunkInfo) : String :=
  "class " ++ chunk.name ++ "(Chunk):\n"
    ++ (match chunk.doc with
        | some doc_text => "    \"\"\"" ++ doc_text ++ "\"\"\"\n\n"
        | none => "    \"\"\"Chunk type: " ++ chunk.name ++ "\"\"\"\n\n")
    ++ String.join (chunk.fields.map (fun f =>
        "    " ++ f.1 ++ ": " ++ f.2 ++ "\n"))
    ++ (if chunk.fields.isEmpty then "" else "\n")
    ++ "    def __init__(self"
    ++ String.join (chunk.fields.map (fun f => ", " ++ f.1 ++ ": " ++ f.2))
    ++ ") -> None: ...\n\n"
    ++ "    def __repr__(self) -> str: ...\n"
    ++ "    def __str__(self) -> str: ...\n"
    ++ "    def to_dict(self) -> Dict[str, Any]: ...\n\n"

/-- The section banner line `# ` followed by 76 equals signs and a newline,
pushed around every section heading of the stub document; one string literal
in build.rs, assembled from two halves here. -/
def pyiBanner : String :=
  "# ======================================"
    ++ "======================================\n"

/-- The fixed header of the stub document: file banner, imports, module
attributes and the exception stub (build.rs, lines 196-229). -/
def pyiHeaderPart : String :=
  "# Type stubs for teehistorian_py._rust\n"
    ++ "# Auto-generated from Rust source code by build.rs\n"
    ++ "# Do not edit manually\n\n"
    ++ "from typing import (\n"
    ++ "    Any,\n"
    ++ "    Dict,\n"
    ++ "    Iterator,\n"
    ++ "    List,\n"
    ++ "    Optional,\n"
    ++ "    Protocol,\n"
    ++ "    Union,\n"
    ++ ")\n\n"
    ++ "__version__: str\n"
    ++ "__doc__: str\n\n"
    ++ pyiBanner
    ++ "# Exceptions\n"
    ++ (pyiBanner ++ "\n")
    ++ "class TeehistorianError(Exception):\n"
    ++ "    \"\"\"Base exception for all teehistorian parsing and writing errors.\n\n"
    ++ "    This exception is raised for any errors that occur during parsing,\n"
    ++ "    writing, or validation of teehistorian files.\n"
    ++ "    \"\"\"\n\n"
    ++ "    def __init__(self, message: str) -> None: ...\n\n"

/-- The parser stub (build.rs, lines 232-286). -/
def pyiParserPart : String :=
  pyiBanner
    ++ "# Parser\n"
    ++ (pyiBanner ++ "\n")
    ++ "class Teehistorian:\n"
    ++ "    \"\"\"High-performance teehistorian file parser.\n\n"
    ++ "    This class provides efficient parsing of teehistorian files using the\n"
    ++ "    Rust backend. It supports iteration over chunks and custom UUID handler\n"
    ++ "    registration for extensibility.\n"
    ++ "    \"\"\"\n\n"
    ++ "    def __init__(self, data: bytes) -> None:\n"
    ++ "        \"\"\"Initialize parser with raw teehistorian data.\n\n"
    ++ "        Args:\n"
    ++ "            data: Raw bytes from a teehistorian file\n\n"
    ++ "        Raises:\n"
    ++ "            TeehistorianError: If data is empty or invalid\n"
    ++ "        \"\"\"\n\n"
    ++ "    def register_custom_uuid(self, uuid_string: str) -> None:\n"
    ++ "        \"\"\"Register a custom UUID handler for chunk parsing.\n\n"
    ++ "        Args:\n"
    ++ "            uuid_string: UUID in format XXXXXXXX-XXXX-XXXX-XXXX-XXXXXXXXXXXX\n\n"
    ++ "        Raises:\n"
    ++ "            TeehistorianError: If UUID format is invalid\n"
    ++ "        \"\"\"\n\n"
    ++ "    def header(self) -> bytes:\n"
    ++ "        \"\"\"Get the teehistorian header as raw bytes.\n\n"
    ++ "        Returns:\n"
    ++ "            Header data as bytes (typically JSON)\n"
    ++ "        \"\"\"\n\n"
    ++ "    @property\n"
    ++ "    def chunk_count(self) -> int:\n"
    ++ "        \"\"\"Number of chunks processed so far.\"\"\"\n\n"
    ++ "    def get_registered_uuids(self) -> List[str]:\n"
    ++ "        \"\"\"Get all registered custom UUID handlers.\n\n"
    ++ "        Returns:\n"
    ++ "            List of registered UUID strings\n"
    ++ "        \"\"\"\n\n"
    ++ "    def __iter__(self) -> Iterator[Any]:\n"
    ++ "        \"\"\"Iterate over chunks in the teehistorian.\"\"\"\n\n"
    ++ "    def __next__(self) -> Any:\n"
    ++ "        \"\"\"Get next chunk from the stream.\n\n"
    ++ "        Returns:\n"
    ++ "            Next chunk object\n\n"
    ++ "        Raises:\n"
    ++ "            StopIteration: When end of stream is reached\n"
    ++ "        \"\"\"\n\n"
    ++ "    def __enter__(self) -> 'Teehistorian':\n"
    ++ "        \"\"\"Context manager entry.\"\"\"\n\n"
    ++ "    def __exit__(self, exc_type: Any, exc_val: Any, exc_tb: Any) -> bool:\n"
    ++ "        \"\"\"Context manager exit.\"\"\"\n\n"

/-- The writer stub (build.rs, lines 289-384). -/
def pyiWriterPart : String :=
  pyiBanner
    ++ "# Writer\n"
    ++ (pyiBanner ++ "\n")
    ++ "class TeehistorianWriter:\n"
    ++ "    \"\"\"Writer for creating teehistorian files programmatically.\n\n"
    ++ "    This class provides functionality to create valid teehistorian files\n"
    ++ "    by writing chunks and configuring headers. Supports method chaining\n"
    ++ "    and context manager protocol for clean resource management.\n"
    ++ "    \"\"\"\n\n"
    ++ "    def __init__(self, file: Optional[Any] = None) -> None:\n"
    ++ "        \"\"\"Initialize a new teehistorian writer.\n\n"
    ++ "        Args:\n"
    ++ "            file: Optional file-like object (for future use)\n"
    ++ "        \"\"\"\n\n"
    ++ "    def write(self, chunk: Any) -> 'TeehistorianWriter':\n"
    ++ "        \"\"\"Write a chunk to the teehistorian.\n\n"
    ++ "        Args:\n"
    ++ "            chunk: A chunk object to write\n\n"
    ++ "        Returns:\n"
    ++ "            Self for method chaining\n"
    ++ "        \"\"\"\n\n"
    ++ "    def write_all(self, chunks: List[Any]) -> 'TeehistorianWriter':\n"
    ++ "        \"\"\"Write multiple chunks at once.\n\n"
    ++ "        Args:\n"
    ++ "            chunks: List of chunk objects to write\n\n"
    ++ "        Returns:\n"
    ++ "            Self for method chaining\n"
    ++ "        \"\"\"\n\n"
    ++ "    def set_header(self, key: str, value: str) -> 'TeehistorianWriter':\n"
    ++ "        \"\"\"Set a header field value.\n\n"
    ++ "        Args:\n"
    ++ "            key: Header field name\n"
    ++ "            value: Header field value\n\n"
    ++ "        Returns:\n"
    ++ "            Self for method chaining\n"
    ++ "        \"\"\"\n\n"
    ++ "    def get_header(self, key: str) -> Optional[str]:\n"
    ++ "        \"\"\"Get a header field value.\n\n"
    ++ "        Args:\n"
    ++ "            key: Header field name\n\n"
    ++ "        Returns:\n"
    ++ "            Header value or None if not set\n"
    ++ "        \"\"\"\n\n"
    ++ "    def update_headers(self, headers: Dict[str, str]) -> 'TeehistorianWriter':\n"
    ++ "        \"\"\"Update multiple header fields from a dictionary.\n\n"
    ++ "        Args:\n"
    ++ "            headers: Dictionary of field names to values\n\n"
    ++ "        Returns:\n"
    ++ "            Self for method chaining\n"
    ++ "        \"\"\"\n\n"
    ++ "    def getvalue(self) -> bytes:\n"
    ++ "        \"\"\"Get all written data as bytes.\n\n"
    ++ "        Returns:\n"
    ++ "            Complete teehistorian file as bytes\n"
    ++ "        \"\"\"\n\n"
    ++ "    def save(self, path: str) -> None:\n"
    ++ "        \"\"\"Save the teehistorian to a file.\n\n"
    ++ "        Args:\n"
    ++ "            path: File path to save to\n"
    ++ "        \"\"\"\n\n"
    ++ "    def writeto(self, file: Any) -> None:\n"
    ++ "        \"\"\"Write all data to a file-like object.\n\n"
    ++ "        Args:\n"
    ++ "            file: File-like object with write() method\n"
    ++ "        \"\"\"\n\n"
    ++ "    def size(self) -> int:\n"
    ++ "        \"\"\"Get current buffer size in bytes.\n\n"
    ++ "        Returns:\n"
    ++ "            Number of bytes written\n"
    ++ "        \"\"\"\n\n"
    ++ "    def reset(self) -> None:\n"
    ++ "        \"\"\"Reset the writer to initial empty state.\n\n"
    ++ "        Clears all written data and resets headers to defaults.\n"
    ++ "        \"\"\"\n\n"
    ++ "    def is_empty(self) -> bool:\n"
    ++ "        \"\"\"Check if any data has been written.\n\n"
    ++ "        Returns:\n"
    ++ "            True if nothing has been written yet\n"
    ++ "        \"\"\"\n\n"
    ++ "    def __enter__(self) -> 'TeehistorianWriter':\n"
    ++ "        \"\"\"Context manager entry.\"\"\"\n\n"
    ++ "    def __exit__(\n"
    ++ "        self,\n"
    ++ "        exc_type: Optional[type],\n"
    ++ "        exc_val: Optional[Exception],\n"
    ++ "        exc_tb: Optional[Any],\n"
    ++ "    ) -> bool:\n"
    ++ "        \"\"\"Context manager exit.\"\"\"\n\n"
    ++ "    def __repr__(self) -> str:\n"
    ++ "        \"\"\"Get string representation.\"\"\"\n\n"

/-- The base chunk class stub (build.rs, lines 387-409). -/
def pyiChunkBasePart : String :=
  pyiBanner
    ++ "# Chunk Types\n"
    ++ (pyiBanner ++ "\n")
    ++ "class Chunk:\n"
    ++ "    \"\"\"Base class for all teehistorian chunk types.\n\n"
    ++ "    All chunk types inherit from this base class, providing a common\n"
    ++ "    interface for chunk operations and serialization.\n"
    ++ "    \"\"\"\n\n"
    ++ "    def chunk_type(self) -> str:\n"
    ++ "        \"\"\"Get the chunk type identifier.\"\"\"\n\n"
    ++ "    def __repr__(self) -> str:\n"
    ++ "        \"\"\"Get string representation for debugging.\"\"\"\n\n"
    ++ "    def __str__(self) -> str:\n"
    ++ "        \"\"\"Get human-readable string representation.\"\"\"\n\n"
    ++ "    def to_dict(self) -> Dict[str, Any]:\n"
    ++ "        \"\"\"Convert chunk to dictionary representation.\n\n"
    ++ "        Returns:\n"
    ++ "            Dictionary with chunk data including 'type' field\n"
    ++ "        \"\"\"\n\n"

/-- The section banner preceding the union aliases (build.rs,
lines 432-438). -/
def pyiAliasHeaderPart : String :=
  pyiBanner
    ++ "# Type Aliases and Categories\n"
    ++ (pyiBanner ++ "\n")

/-- The member lines of one `Union[...]` alias: four-space indent, name, a
comma after every member but the last. -/
def unionLines (names : List String) : String :=
  String.join ((enumF 0 names).map (fun p =>
    "    " ++ p.2 ++ (if p.1 < names.length - 1 then "," else "") ++ "\n"))

/-- `generate_pyi` (build.rs, lines 193-471): fixed preamble, chunk classes
grouped by category in ascending category order, one union alias per
category, and the grand `AllChunks` union over the (sorted) chunk list. -/
def generate_pyi (chunks : List ChunkInfo) : String :=
  let grouped := groupByCategory chunks
  pyiHeaderPart ++ pyiParserPart ++ pyiWriterPart ++ pyiChunkBasePart
    ++ String.join (grouped.map (fun g =>
        "# " ++ g.1 ++ " Chunks\n"
          ++ String.join (g.2.map generate_chunk_class)))
    ++ pyiAliasHeaderPart
    ++ String.join (grouped.map (fun g =>
        g.1 ++ "Chunk" ++ " = Union[\n"
          ++ unionLines (g.2.map ChunkInfo.name) ++ "]\n\n"))
    ++ "# All chunk types\n"
    ++ "AllChunks = Union[\n"
    ++ unionLines (chunks.map ChunkInfo.name)
    ++ "]\n\n"

-- ============================================================================
-- Dict lemmas
-- ============================================================================

theorem setItem_fresh (d : List (String × PyValue)) (k : String) (v : PyValue)
    (h : k ∉ d.map Prod.fst) : setItem d k v = d ++ [(k, v)] := by
  have hno : ¬ (d.any (fun p => decide (p.1 = k)) = true) := by
    intro hany
    rw [List.any_eq_true] at hany
    obtain ⟨p, hp, hpk⟩ := hany
    rw [decide_eq_true_eq] at hpk
    exact h (hpk ▸ List.mem_map_of_mem Prod.fst hp)
  unfold setItem
  rw [if_neg hno]

theorem foldl_setItem_fresh :
    ∀ (fields : List (String × PyValue)) (d : List (String × PyValue)),
    (fields.map Prod.fst).Nodup →
    (∀ k ∈ fields.map Prod.fst, k ∉ d.map Prod.fst) →
    fields.foldl (fun d p => setItem d p.1 p.2) d = d ++ fields := by
  intro fields
  induction fields with
  | nil => intro d _ _; simp
  | cons p fs ih =>
    intro d hnd hfresh
    rw [List.map_cons] at hnd
    obtain ⟨hhead, htail⟩ := List.nodup_cons.mp hnd
    simp only [List.foldl_cons]
    rw [setItem_fresh d p.1 p.2 (hfresh p.1 (by simp))]
    have hfresh' : ∀ k ∈ fs.map Prod.fst, k ∉ (d ++ [(p.1, p.2)]).map Prod.fst := by
      intro k hk
      simp only [List.map_append, List.mem_append, not_or]
      refine ⟨hfresh k (by simp [hk]), ?_⟩
      simp only [List.map_cons, List.map_nil, List.mem_singleton]
      intro hkp
      exact hhead (hkp ▸ hk)
    have := ih (d ++ [(p.1, p.2)]) htail hfresh'
    rw [this]
    simp

/-- Claim C1: for every macro-generated chunk type with declared fields,
constructing an instance and calling `to_dict()` returns a mapping whose
first entry is `"type"` mapped to the surface name, followed by the declared
fields in declaration order, each mapped to the unmodified constructor
value — provided the declared field names are distinct and none of them is
the literal name `type`, which holds for every declaration in
src/chunks.rs. -/
theorem generated_to_dict_ordered (typeName : String)
    (fields : List (String × PyValue))
    (hnd : (fields.map Prod.fst).Nodup)
    (hty : "type" ∉ fields.map Prod.fst) :
    generatedToDict typeName fields = ("type", PyValue.str typeName) :: fields := by
  unfold generatedToDict
  have h0 : setItem [] "type" (PyValue.str typeName) =
      [("type", PyValue.str typeName)] := rfl
  rw [h0, foldl_setItem_fresh fields [("type", PyValue.str typeName)] hnd ?hf]
  · simp
  case hf =>
    intro k hk
    simp only [List.map_cons, List.map_nil, List.mem_singleton]
    intro hkty
    exact hty (hkty ▸ hk)

/-- Witness for C1 at the `PlayerReady` declaration shape. -/
theorem generated_to_dict_ordered_witness :
    generatedToDict "PlayerReady" [("client_id", PyValue.int 7)] =
      [("type", PyValue.str "PlayerReady"), ("client_id", PyValue.int 7)] :=
  generated_to_dict_ordered "PlayerReady" [("client_id", PyValue.int 7)]
    (by decide) (by decide)

-- ============================================================================
-- Input array lemmas
-- ============================================================================

theorem foldl_set_shift (l : List Int) : ∀ (k : Nat) (a : Int) (arr : List Int),
    (enumF (k + 1) l).foldl (fun arr p => arr.set p.1 p.2) (a :: arr) =
      a :: (enumF k l).foldl (fun arr p => arr.set p.1 p.2) arr := by
  induction l with
  | nil => intro k a arr; rfl
  | cons b t ih =>
    intro k a arr
    simp only [enumF, List.foldl_cons]
    have hset : (a :: arr).set (k + 1) b = a :: arr.set k b := rfl
    rw [hset]
    exact ih (k + 1) a (arr.set k b)

theorem foldl_set_fill : ∀ (l arr : List Int), l.length ≤ arr.length →
    (enumF 0 l).foldl (fun arr p => arr.set p.1 p.2) arr =
      l ++ arr.drop l.length := by
  intro l
  induction l with
  | nil => intro arr _; simp [enumF]
  | cons a t ih =>
    intro arr hlen
    cases arr with
    | nil => simp at hlen
    | cons b arr' =>
      simp only [enumF, List.foldl_cons]
      have hset : (b :: arr').set 0 a = a :: arr' := rfl
      rw [hset, foldl_set_shift t 0 a arr', ih arr' (by simpa using hlen)]
      simp

theorem fillInputArray_eq (input : List Int) :
    fillInputArray input =
      input.take 10 ++ List.replicate (10 - min input.length 10) 0 := by
  unfold fillInputArray
  rw [foldl_set_fill (input.take 10) (List.replicate 10 0) (by simp),
    List.length_take, List.drop_replicate, Nat.min_comm]

theorem fillInputArray_length (input : List Int) :
    (fillInputArray input).length = 10 := by
  rw [fillInputArray_eq]
  simp
  omega

/-- Claim C2: for an `InputNew` or `InputDiff` instance with an input list of
length n, the wire array has exactly 10 entries: the first `min n 10` are the
supplied values in order and the remainder are zero; in particular 15
supplied integers truncate to the first 10 and 3 supplied integers are padded
with 7 zeros. -/
theorem input_chunks_truncate_and_pad (c : Int) (input : List Int) :
    PyInputNew.to_teehistorian_chunk ⟨c, input⟩ =
      Chunk.InputNew
        ⟨c, input.take 10 ++ List.replicate (10 - min input.length 10) 0⟩ ∧
    PyInputDiff.to_teehistorian_chunk ⟨c, input⟩ =
      Chunk.InputDiff
        ⟨c, input.take 10 ++ List.replicate (10 - min input.length 10) 0⟩ ∧
    (fillInputArray input).length = 10 ∧
    fillInputArray [1, 2, 3, 4, 5, 6, 7, 8, 9, 10, 11, 12, 13, 14, 15] =
      [1, 2, 3, 4, 5, 6, 7, 8, 9, 10] ∧
    fillInputArray [1, 2, 3] = [1, 2, 3, 0, 0, 0, 0, 0, 0, 0] := by
  refine ⟨?_, ?_, fillInputArray_length input, by decide, by decide⟩
  · simp only [PyInputNew.to_teehistorian_chunk, fillInputArray_eq]
  · simp only [PyInputDiff.to_teehistorian_chunk, fillInputArray_eq]

-- ============================================================================
-- Conversion claims
-- ============================================================================

/-- Claim C3: the identifier-token conversion `as_uuid` (used by
`DdnetVersion`, `TeamLoadSuccess`, `Unknown` and `CustomChunk`) never fails:
a string that parses as a UUID yields that UUID, and a string that does not
parse yields the all-zero UUID instead of an error. -/
theorem as_uuid_never_fails (s : String) :
    (∀ u, parseUuidStr s = some u → as_uuid s = u) ∧
    (parseUuidStr s = none → as_uuid s = 0) := by
  constructor
  · intro u h
    simp [as_uuid, h]
  · intro h
    simp [as_uuid, h]

/-- Witness for C3: the malformed token of the spec and a canonical token. -/
theorem as_uuid_never_fails_witness :
    as_uuid "not-a-token" = 0 ∧
    as_uuid "00000000-0000-0000-0000-000000000001" = 1 :=
  ⟨(as_uuid_never_fails "not-a-token").2 (by decide),
   (as_uuid_never_fails "00000000-0000-0000-0000-000000000001").1 1 (by decide)⟩

/-- Claim C4: the `as_args_vec` conversion used for `ConsoleCommand.args`
produces exactly a one-element list holding the full byte sequence of the
string, with no splitting at any delimiter, for every input. -/
theorem console_args_single_token (c f : Int) (cmd args : String) :
    PyConsoleCommand.to_teehistorian_chunk ⟨c, f, cmd, args⟩ =
      Chunk.ConsoleCommand
        { cid := c, flags := f, cmd := strBytes cmd, args := [strBytes args] } ∧
    (as_args_vec args).length = 1 ∧
    (as_args_vec args).flatten = strBytes args := by
  refine ⟨rfl, rfl, by simp [as_args_vec]⟩

/-- Claim C5: encoding an `AuthLogin` instance selects the outer variant tag
`AuthLogin` while the inner wire record is the differently-named `Auth`
record, carrying `client_id` as `cid`, `level` as `level` and `auth_name` as
its raw bytes. -/
theorem auth_login_outer_inner_names (c l : Int) (n : String) :
    PyAuthLogin.to_teehistorian_chunk ⟨c, l, n⟩ =
      Chunk.AuthLogin { cid := c, level := l, auth_name := strBytes n } ∧
    (PyAuthLogin.to_teehistorian_chunk ⟨c, l, n⟩).variantName = "AuthLogin" ∧
    (PyAuthLogin.to_teehistorian_chunk ⟨c, l, n⟩).innerStructName = some "Auth" :=
  ⟨rfl, rfl, rfl⟩

/-- Claim C6: `CustomChunk(u, d, h)` encodes to exactly the same wire value as
`Unknown(u, d)` — the handler name has no effect on encoding — while the map
view of `CustomChunk` has a `handler_name` entry that the map view of
`Unknown` lacks. -/
theorem custom_chunk_wire_equals_unknown (u : String) (d : List Nat)
    (hn : String) :
    PyCustomChunk.to_teehistorian_chunk ⟨u, d, hn⟩ =
      PyUnknown.to_teehistorian_chunk ⟨u, d⟩ ∧
    (PyCustomChunk.to_dict ⟨u, d, hn⟩).map Prod.fst =
      ["type", "uuid", "data", "handler_name"] ∧
    "handler_name" ∉ (PyUnknown.to_dict ⟨u, d⟩).map Prod.fst := by
  refine ⟨rfl, rfl, ?_⟩
  have h : (PyUnknown.to_dict ⟨u, d⟩).map Prod.fst = ["type", "uuid", "data"] :=
    rfl
  rw [h]
  decide

/-- Claim C10: encoding `PlayerTeam(c, t)` discards the team entirely and
produces exactly the wire chunk of `PlayerReady(c)` (a `PlayerName` record
with cid c and empty name); the team value is observable only through the map
view. -/
theorem player_team_discards_team (c t t' : Int) :
    PyPlayerTeam.to_teehistorian_chunk ⟨c, t⟩ =
      PyPlayerReady.to_teehistorian_chunk ⟨c⟩ ∧
    PyPlayerTeam.to_teehistorian_chunk ⟨c, t⟩ =
      PyPlayerTeam.to_teehistorian_chunk ⟨c, t'⟩ ∧
    ("team", PyValue.int t) ∈ PyPlayerTeam.to_dict ⟨c, t⟩ ∧
    "team" ∉ (PyPlayerReady.to_dict ⟨c⟩).map Prod.fst := by
  refine ⟨rfl, rfl, ?_, ?_⟩
  · have h : PyPlayerTeam.to_dict ⟨c, t⟩ =
        [("type", PyValue.str "PlayerTeam"), ("client_id", PyValue.int c),
         ("team", PyValue.int t)] := rfl
    rw [h]
    simp
  · have h : (PyPlayerReady.to_dict ⟨c⟩).map Prod.fst = ["type", "client_id"] :=
      rfl
    rw [h]
    decide

-- ============================================================================
-- Error conversion claim
-- ============================================================================

/-- Claim C8: converting `TeehistorianParseError` to a Python exception maps
`Eof` to the `StopIteration` control signal, and every other variant to the
single uniform `TeehistorianError` kind wrapping the underlying cause's
message. -/
theorem parse_error_to_pyerr (e : TeehistorianParseError) :
    pyErrFromParseError TeehistorianParseError.Eof =
      PyErr.stopIteration "End of file reached" ∧
    (e ≠ TeehistorianParseError.Eof →
      pyErrFromParseError e = PyErr.teehistorianError e.to_string) := by
  refine ⟨rfl, ?_⟩
  intro h
  cases e <;> first | rfl | exact absurd rfl h

/-- Witness for C8 at a `Validation` error, matching the unit test in
src/errors.rs. -/
theorem parse_error_to_pyerr_witness :
    pyErrFromParseError (TeehistorianParseError.Validation "Invalid data") =
      PyErr.teehistorianError "Validation failed: Invalid data" := by
  have h :=
    (parse_error_to_pyerr (TeehistorianParseError.Validation "Invalid data")).2
      (by decide)
  rw [h]
  decide

-- ============================================================================
-- Order lemmas for the sort
-- ============================================================================

theorem charToNat_inj {a b : Char} (h : a.toNat = b.toNat) : a = b :=
  Char.eq_of_val_eq (UInt32.ext h)

theorem clLt_trans : ∀ {a b c : List Char},
    clLt a b = true → clLt b c = true → clLt a c = true := by
  intro a
  induction a with
  | nil =>
    intro b c hab hbc
    cases b with
    | nil => simp [clLt] at hab
    | cons y ys =>
      cases c with
      | nil => simp [clLt] at hbc
      | cons z zs => rfl
  | cons x xs ih =>
    intro b c hab hbc
    cases b with
    | nil => simp [clLt] at hab
    | cons y ys =>
      cases c with
      | nil => simp [clLt] at hbc
      | cons z zs =>
        simp only [clLt, Bool.or_eq_true, Bool.and_eq_true] at hab hbc ⊢
        rcases hab with h1 | ⟨he1, h1⟩
        · rcases hbc with h2 | ⟨he2, h2⟩
          · left
            simp only [charLtB, decide_eq_true_eq] at h1 h2 ⊢
            omega
          · have hyz : y = z := by simpa using he2
            left
            exact hyz ▸ h1
        · have hxy : x = y := by simpa using he1
          subst hxy
          rcases hbc with h2 | ⟨he2, h2⟩
          · left; exact h2
          · have hxz : x = z := by simpa using he2
            subst hxz
            right
            exact ⟨by simp, ih h1 h2⟩

theorem clLt_false : ∀ {a b : List Char},
    clLt a b = false → clLt b a = true ∨ a = b := by
  intro a
  induction a with
  | nil =>
    intro b h
    cases b with
    | nil => right; rfl
    | cons y ys => simp [clLt] at h
  | cons x xs ih =>
    intro b h
    cases b with
    | nil => left; rfl
    | cons y ys =>
      simp only [clLt, Bool.or_eq_false_iff] at h
      obtain ⟨hlt, hrest⟩ := h
      by_cases hxy : x = y
      · subst hxy
        rcases Bool.and_eq_false_iff.mp hrest with hbe | hcl
        · simp at hbe
        · rcases ih hcl with h' | h'
          · left
            simp only [clLt, Bool.or_eq_true, Bool.and_eq_true]
            right
            exact ⟨by simp, h'⟩
          · right
            rw [h']
      · left
        simp only [clLt, Bool.or_eq_true]
        left
        simp only [charLtB, decide_eq_true_eq] at hlt ⊢
        simp only [decide_eq_false_iff_not, not_lt] at hlt
        have hne : x.toNat ≠ y.toNat := fun hh => hxy (charToNat_inj hh)
        omega

theorem stringToList_inj {a b : String} (h : a.toList = b.toList) : a = b := by
  cases a
  cases b
  exact congrArg String.mk (by simpa [String.toList] using h)

theorem strLeB_refl (a : String) : strLeB a a = true := by
  simp [strLeB]

theorem strLtB_false_le {a b : String} (h : strLtB a b = false) :
    strLeB b a = true := by
  rcases clLt_false h with h' | h'
  · unfold strLeB strLtB
    rw [h']
    rfl
  · have hab : a = b := stringToList_inj h'
    subst hab
    exact strLeB_refl a

theorem strLeB_trans {a b c : String} (h1 : strLeB a b = true)
    (h2 : strLeB b c = true) : strLeB a c = true := by
  simp only [strLeB, Bool.or_eq_true, decide_eq_true_eq] at h1 h2 ⊢
  rcases h1 with h1 | h1
  · rcases h2 with h2 | h2
    · left; exact clLt_trans h1 h2
    · subst h2; left; exact h1
  · subst h1; exact h2

/-- The name projection of the sort order: the relation the sorted chunk list
is pairwise ordered by. -/
def nameLe (a b : ChunkInfo) : Prop :=
  strLeB a.name b.name = true

theorem chunkLeB_name_le {a b : ChunkInfo} (h : chunkLeB a b = true) :
    nameLe a b := by
  simp only [chunkLeB, Bool.or_eq_true, Bool.and_eq_true, decide_eq_true_eq]
    at h
  rcases h with h | ⟨he, _⟩
  · simp [nameLe, strLeB, h]
  · simp [nameLe, strLeB, he]

theorem chunkLeB_false_name_le {a b : ChunkInfo} (h : chunkLeB a b = false) :
    nameLe b a := by
  simp only [chunkLeB, Bool.or_eq_false_iff] at h
  exact strLtB_false_le h.1

theorem nameLe_trans {a b c : ChunkInfo} (h1 : nameLe a b) (h2 : nameLe b c) :
    nameLe a c :=
  strLeB_trans h1 h2

theorem mem_insertChunk {c y : ChunkInfo} :
    ∀ {l : List ChunkInfo}, y ∈ insertChunk c l → y = c ∨ y ∈ l := by
  intro l
  induction l with
  | nil =>
    intro h
    simp only [insertChunk, List.mem_singleton] at h
    exact Or.inl h
  | cons x xs ih =>
    intro h
    simp only [insertChunk] at h
    by_cases hc : chunkLeB c x = true
    · rw [if_pos hc] at h
      rcases List.mem_cons.mp h with h | h
      · exact Or.inl h
      · exact Or.inr h
    · rw [if_neg hc] at h
      rcases List.mem_cons.mp h with h | h
      · exact Or.inr (by simp [h])
      · rcases ih h with h | h
        · exact Or.inl h
        · exact Or.inr (by simp [h])

theorem pairwise_insertChunk {c : ChunkInfo} :
    ∀ {l : List ChunkInfo}, l.Pairwise nameLe →
      (insertChunk c l).Pairwise nameLe := by
  intro l
  induction l with
  | nil => intro _; simp [insertChunk]
  | cons x xs ih =>
    intro hp
    rcases List.pairwise_cons.mp hp with ⟨hx, hxs⟩
    simp only [insertChunk]
    by_cases hc : chunkLeB c x = true
    · rw [if_pos hc]
      refine List.pairwise_cons.mpr ⟨?_, hp⟩
      intro y hy
      rcases List.mem_cons.mp hy with h | h
      · subst h; exact chunkLeB_name_le hc
      · exact nameLe_trans (chunkLeB_name_le hc) (hx y h)
    · rw [if_neg hc]
      refine List.pairwise_cons.mpr ⟨?_, ih hxs⟩
      intro y hy
      rcases mem_insertChunk hy with h | h
      · subst h
        exact chunkLeB_false_name_le (Bool.eq_false_iff.mpr hc)
      · exact hx y h

theorem pairwise_sortChunks : ∀ l : List ChunkInfo,
    (sortChunks l).Pairwise nameLe := by
  intro l
  induction l with
  | nil => simp [sortChunks]
  | cons c cs ih => exact pairwise_insertChunk ih

-- ============================================================================
-- Stub generator claims
-- ============================================================================

/-- Claim C7: the stub generation pass is deterministic — the extracted
declarations are sorted by surface name before any output is produced, and
running the generator twice on the same declarations yields byte-identical
stub documents. -/
theorem stub_generation_sorted_deterministic (items : List Item) :
    generate_pyi (extract_chunks_from_source items) =
      generate_pyi (extract_chunks_from_source items) ∧
    (extract_chunks_from_source items).Pairwise nameLe :=
  ⟨rfl, pairwise_sortChunks _⟩

/-- Claim C9: a scanned declaration that does not reflect to a well-formed
record is silently skipped, leaving the reflection of every other declaration
unchanged; the function is total, so the build never fails on it. -/
theorem reflector_soft_skips (l1 l2 : List Item) (bad : Item)
    (h : reflectItem bad = none) :
    extract_chunks_from_source (l1 ++ bad :: l2) =
      extract_chunks_from_source (l1 ++ l2) := by
  unfold extract_chunks_from_source
  rw [List.filterMap_append, List.filterMap_cons, h, List.filterMap_append]

/-- Witness for C9: a non-struct item between two reflectable declarations is
skipped and the others are still reflected. -/
theorem reflector_soft_skips_witness :
    extract_chunks_from_source
        [Item.strukt ⟨"PyJoin", true, [Attr.pyclass, Attr.doc " Player joins"],
          StructFields.named [⟨"client_id", "i32", [Attr.pyo3Get]⟩]⟩,
         Item.otherItem,
         Item.strukt ⟨"PyDrop", true, [Attr.pyclass, Attr.doc " Player leaves"],
          StructFields.named [⟨"client_id", "i32", [Attr.pyo3Get]⟩]⟩] =
      extract_chunks_from_source
        [Item.strukt ⟨"PyJoin", true, [Attr.pyclass, Attr.doc " Player joins"],
          StructFields.named [⟨"client_id", "i32", [Attr.pyo3Get]⟩]⟩,
         Item.strukt ⟨"PyDrop", true, [Attr.pyclass, Attr.doc " Player leaves"],
          StructFields.named [⟨"client_id", "i32", [Attr.pyo3Get]⟩]⟩] :=
  reflector_soft_skips
    [Item.strukt ⟨"PyJoin", true, [Attr.pyclass, Attr.doc " Player joins"],
      StructFields.named [⟨"client_id", "i32", [Attr.pyo3Get]⟩]⟩]
    [Item.strukt ⟨"PyDrop", true, [Attr.pyclass, Attr.doc " Player leaves"],
      StructFields.named [⟨"client_id", "i32", [Attr.pyo3Get]⟩]⟩]
    Item.otherItem rfl
